import Mathlib

/-!
Verification of the OOADEduDemo orchestration and API-route logic

Shallow embedding of the TypeScript sources of the `7Sageer/OOADEduDemo`
repository:

* the `useLLM` hook (`sendMessage` / `handleFunctionCall` with its
  `MAX_ITERATIONS` function-call loop),
* the `onToolCall` handler of the page component, its `MAX_TOOL_CALLS` guard and
  `handleSlideChange`,
* the `/api/context` GET route with its hardcoded `SAMPLE_CONTEXTS` map,
* the `/api/chat` POST route with `getSystemPrompt`.

External effects (HTTP round trips to the hosted LLM, the context fetch)
are modelled as explicit oracle functions passed in as parameters; React
state updates are modelled as explicit state threading; `uuidv4()` id
generation is modelled by a fresh-id counter.  JavaScript values that the
code type-checks at runtime (such as `typeof args.content` being a string) are
modelled as `Option` fields holding the value exactly when the runtime
check succeeds.
-/

namespace OOADEduDemo

/-- Message roles used across the hook and the routes. -/
inductive Role where
  | user
  | assistant
  | system
  | tool
deriving DecidableEq, Repr

/-- A `function_call` attached to a message.  In the source its
`arguments` is a `Record<string, unknown>` (or a JSON string that is
parsed first); the code only ever reads `arguments.content` when it is a
string and `arguments.pageNumber` when it is a number, so the embedding
keeps exactly those two typed projections (`none` when the field is
absent or of the wrong runtime type, in which case the corresponding
branch of the source rejects the call). -/
structure FunctionCall where
  name : String
  content : Option String := none
  pageNumber : Option Int := none
deriving DecidableEq, Repr

/-- Slide context object (`title`, `content`, `explanation`, `keywords`),
optionally enriched with `currentPage` / `totalPages` as in the
`SlideContext` interface of `page.tsx` and the hook. -/
structure SlideContext where
  title : String
  content : String
  explanation : String
  keywords : List String
  currentPage : Option Int := none
  totalPages : Option Int := none
deriving DecidableEq, Repr

/-- Chat message as kept in the hook state (`id` from `uuidv4()` is
modelled as a `Nat` drawn from a fresh-id counter). -/
structure Message where
  id : Nat
  role : Role
  content : String
  function_call : Option FunctionCall := none
deriving DecidableEq, Repr

/-- Canvas state `{ visible, content }`. -/
structure CanvasContent where
  visible : Bool
  content : String
deriving DecidableEq, Repr

/-- Models JavaScript `Array.prototype.join` with a comma-space separator, via `String.intercalate`. -/
def joinComma (xs : List String) : String :=
  String.intercalate ", " xs

/-- Text of the tool message produced by `handleFunctionCall` for a
successful `switch_slide` that returned context data. -/
def pageContentText (p : Int) (c : SlideContext) : String :=
  "第" ++ toString p ++ "页内容：\n\n标题：" ++ c.title ++
    "\n\n内容：" ++ c.content ++ "\n\n解释：" ++ c.explanation ++
    "\n\n关键词：" ++ joinComma c.keywords

/-- Result of `handleFunctionCall`: the (possibly updated) canvas state,
the updated message list, and the advanced fresh-id counter. -/
structure HFCOut where
  canvas : CanvasContent
  messages : List Message
  nextId : Nat
deriving DecidableEq, Repr

/-- The `handleFunctionCall` callback of the `useLLM` hook.  `onSlideChange` is the
optional callback prop; it is modelled as a pure oracle
`Int → Option SlideContext` (`none` = the callback resolved to
`undefined`).  A `create_canvas` call with a string `content` sets the
canvas and appends a tool message; a `switch_slide` call with a numeric
`pageNumber` and a provided callback appends a switch notice and, when
context data came back, a page-content message; every other case logs an
error and leaves everything unchanged. -/
def handleFunctionCall (onSlideChange : Option (Int → Option SlideContext))
    (canvas : CanvasContent) (fc : FunctionCall)
    (msgs : List Message) (nid : Nat) : HFCOut :=
  if fc.name = "create_canvas" then
    match fc.content with
    | some c =>
        { canvas := ⟨true, c⟩
          messages := msgs ++ [⟨nid, Role.tool, "已创建画布，展示内容。", none⟩]
          nextId := nid + 1 }
    | none => ⟨canvas, msgs, nid⟩
  else if fc.name = "switch_slide" then
    match fc.pageNumber, onSlideChange with
    | some p, some cb =>
        let notice : Message := ⟨nid, Role.tool, "已切换到第" ++ toString p ++ "页。", none⟩
        match cb p with
        | some ctx =>
            ⟨canvas, msgs ++ [notice, ⟨nid + 1, Role.tool, pageContentText p ctx, none⟩], nid + 2⟩
        | none => ⟨canvas, msgs ++ [notice], nid + 1⟩
    | _, _ => ⟨canvas, msgs, nid⟩
  else ⟨canvas, msgs, nid⟩

/-- The assistant message inside `choices[0]` of a chat response:
`content` may be `null` (modelled `none`) and `function_call` may be
absent. -/
structure AssistantMsg where
  content : Option String
  function_call : Option FunctionCall
deriving DecidableEq, Repr

/-- One `/api/chat` round trip as seen by `sendMessage`:
`ok choices` is a resolved response (a `none` entry models a falsy
`choices[i].message`); `badFormat` models a resolved response whose
`llmResponse` or `llmResponse.choices` is falsy; `fail e` models a
rejected `axios.post` (network or HTTP error `e`). -/
inductive ApiResponse where
  | ok (choices : List (Option AssistantMsg))
  | badFormat
  | fail (e : String)
deriving DecidableEq, Repr

/-- Outcome of the function-call loop: the final `currentMessages`, the
canvas state, the number of `axios.post` requests issued to `/api/chat`, the advanced id counter, and `some e` when an exception `e`
escaped to the surrounding `catch`. -/
structure LoopResult where
  messages : List Message
  canvas : CanvasContent
  posts : Nat
  nextId : Nat
  error : Option String
deriving DecidableEq, Repr

/-- Constant `MAX_ITERATIONS` (value 5) declared in `sendMessage`. -/
def MAX_ITERATIONS : Nat := 5

/-- The `while (hasFunctionCall && iterationCount < MAX_ITERATIONS)` loop
of `sendMessage`.  `oracle k` is the response to the `k`-th
`axios.post` request to `/api/chat` (the body of the iteration first increments
`iterationCount`, then posts).  Each iteration appends the assistant
message built from `choices[0].message` and, when it carries a
`function_call`, runs `handleFunctionCall`; otherwise it clears
`hasFunctionCall` and the loop exits. -/
def runLoop (oracle : Nat → ApiResponse)
    (onSlideChange : Option (Int → Option SlideContext))
    (hasFC : Bool) (iterationCount : Nat)
    (msgs : List Message) (canvas : CanvasContent)
    (posts : Nat) (nid : Nat) : LoopResult :=
  if h : hasFC = true ∧ iterationCount < MAX_ITERATIONS then
    match oracle (iterationCount + 1) with
    | ApiResponse.fail e => ⟨msgs, canvas, posts + 1, nid, some e⟩
    | ApiResponse.badFormat =>
        ⟨msgs, canvas, posts + 1, nid, some "LLM返回了无效的响应格式"⟩
    | ApiResponse.ok choices =>
        match choices with
        | [] => ⟨msgs, canvas, posts + 1, nid, some "LLM返回了无效的响应格式"⟩
        | none :: _ => ⟨msgs, canvas, posts + 1, nid, some "LLM响应中缺少消息内容"⟩
        | some am :: _ =>
            let newAssistantMessage : Message :=
              ⟨nid, Role.assistant, am.content.getD "", am.function_call⟩
            let msgs1 := msgs ++ [newAssistantMessage]
            match am.function_call with
            | some fc =>
                let out := handleFunctionCall onSlideChange canvas fc msgs1 (nid + 1)
                runLoop oracle onSlideChange true (iterationCount + 1)
                  out.messages out.canvas (posts + 1) out.nextId
            | none =>
                runLoop oracle onSlideChange false (iterationCount + 1)
                  msgs1 canvas (posts + 1) (nid + 1)
  else ⟨msgs, canvas, posts, nid, none⟩
termination_by MAX_ITERATIONS - iterationCount
decreasing_by
  all_goals exact Nat.sub_lt_sub_left h.2 (Nat.lt_succ_self _)

/-- JavaScript `String.prototype.trim()`: the string with leading and
trailing whitespace removed. -/
def jsTrim (s : String) : String :=
  String.mk (((s.toList.dropWhile Char.isWhitespace).reverse.dropWhile
    Char.isWhitespace).reverse)

/-- Observable state of the `useLLM` hook. -/
structure HookState where
  messages : List Message
  isLoading : Bool
  error : Option String
  canvas : CanvasContent
deriving DecidableEq, Repr

/-- Result of a `sendMessage` call: the hook state after the call settles
(`finally` has run), the number of `/api/chat` POSTs issued, and the
advanced fresh-id counter. -/
structure SendResult where
  state : HookState
  posts : Nat
  nextId : Nat
deriving DecidableEq, Repr

/-- The `sendMessage` function of the `useLLM` hook.  A blank (`!content.trim()`)
input returns immediately.  Otherwise the user message is appended, the
function-call loop runs, and on success the state takes the final
message list of the loop while on an exception the state keeps the previously
appended user message and records the error; canvas updates made by
`handleFunctionCall` before a later exception persist either way, and
`isLoading` is reset in `finally`. -/
def sendMessage (oracle : Nat → ApiResponse)
    (onSlideChange : Option (Int → Option SlideContext))
    (includeHistory : Bool) (st : HookState) (nid : Nat)
    (content : String) : SendResult :=
  if jsTrim content = "" then ⟨st, 0, nid⟩
  else
    let userMessage : Message := ⟨nid, Role.user, content, none⟩
    let currentMessages :=
      if includeHistory then st.messages ++ [userMessage] else [userMessage]
    let r := runLoop oracle onSlideChange true 0 currentMessages st.canvas 0 (nid + 1)
    match r.error with
    | none =>
        ⟨{ messages := r.messages, isLoading := false, error := none, canvas := r.canvas },
          r.posts, r.nextId⟩
    | some e =>
        ⟨{ messages := st.messages ++ [userMessage], isLoading := false,
            error := some e, canvas := r.canvas },
          r.posts, r.nextId⟩

/-- Observable state of the `Home` page component (`page.tsx`).
`introGenerated` (`{[page: number]: boolean}`) is modelled as the list of
pages whose flag is `true`. -/
structure PageState where
  pdfUrl : String
  currentPage : Int
  totalPages : Int
  slideContext : Option SlideContext
  introGenerated : List Int
  llmInitiatedPageChange : Bool
  canvas : CanvasContent
  isProcessingToolCall : Bool
  toolCallCount : Nat
deriving DecidableEq, Repr

/-- The `handleSlideChange` handler of `page.tsx`.  `fetchCtx` is the oracle for
`fetchSlideContext(pdfUrl, pageNumber)` (`none` = the awaited call threw,
e.g. a 404 turned into an axios rejection).  An out-of-range page number
is rejected before any state update; otherwise the LLM-initiated flag,
the intro flag for the target page and `currentPage` are set, and on a
successful fetch the context (enriched with page info) is stored and
returned. -/
def handleSlideChange (fetchCtx : String → Int → Option SlideContext)
    (st : PageState) (pageNumber : Int) : PageState × Option SlideContext :=
  if pageNumber < 1 ∨ pageNumber > st.totalPages then (st, none)
  else
    let st1 : PageState :=
      { st with llmInitiatedPageChange := true
                introGenerated := st.introGenerated ++ [pageNumber]
                currentPage := pageNumber }
    match fetchCtx st.pdfUrl pageNumber with
    | none => (st1, none)
    | some ctx =>
        let contextWithPageInfo : SlideContext :=
          { ctx with currentPage := some pageNumber, totalPages := some st.totalPages }
        ({ st1 with slideContext := some contextWithPageInfo }, some contextWithPageInfo)

/-- Arguments object of a tool call as delivered by the AI SDK; as for
`FunctionCall`, only the two runtime-type-checked projections are kept. -/
structure ToolArgs where
  content : Option String := none
  pageNumber : Option Int := none
deriving DecidableEq, Repr

/-- A tool call delivered to `onToolCall`.  `args = none` models the
guard on `toolCall.args` rejecting an absent or non-object value. -/
structure ToolCall where
  toolCallId : String
  toolName : String
  args : Option ToolArgs
deriving DecidableEq, Repr

/-- What `onToolCall` produces: the page state after the synchronous part
of the handler, and the `result` string of the returned tool result (the
`toolCallId` is always echoed unchanged alongside it). -/
structure ToolCallOut where
  state : PageState
  result : String
deriving DecidableEq, Repr

/-- Constant `MAX_TOOL_CALLS` (value 10) declared in `page.tsx`. -/
def MAX_TOOL_CALLS : Nat := 10

/-- The `onToolCall` handler of the `useChat` hook in `page.tsx`.  When
`toolCallCount` has reached `MAX_TOOL_CALLS` the limit-reached result is
returned at once, before any state update.  Otherwise the processing
flag is set, the count incremented, and the named tool dispatched:
`create_canvas` sets the canvas when `args.content` is a string,
`switch_slide` runs `handleSlideChange` when `args.pageNumber` is a
number, and unknown tools report "not implemented".  (The deferred
`setTimeout` continuation that `append`s a system message and clears the
processing flag runs asynchronously after the handler returns and is not
part of this synchronous transition.) -/
def onToolCall (fetchCtx : String → Int → Option SlideContext)
    (st : PageState) (tc : ToolCall) : ToolCallOut :=
  if MAX_TOOL_CALLS ≤ st.toolCallCount then
    ⟨st, "已达到最大工具调用次数 (" ++ toString MAX_TOOL_CALLS ++ ")，请重新开始对话"⟩
  else
    let st1 : PageState :=
      { st with isProcessingToolCall := true, toolCallCount := st.toolCallCount + 1 }
    match tc.args with
    | none =>
        ⟨{ st1 with isProcessingToolCall := false },
          "Error: Invalid arguments received for tool " ++ tc.toolName⟩
    | some args =>
        if tc.toolName = "create_canvas" then
          match args.content with
          | some c => ⟨{ st1 with canvas := ⟨true, c⟩ }, "Canvas created successfully."⟩
          | none =>
              ⟨st1, "Error: Missing or invalid \x27content\x27 argument for create_canvas."⟩
        else if tc.toolName = "switch_slide" then
          match args.pageNumber with
          | some p =>
              let out := handleSlideChange fetchCtx st1 p
              match out.2 with
              | some contextData =>
                  ⟨out.1, "Successfully switched to slide " ++ toString p ++
                    ". New context: " ++ contextData.title⟩
              | none =>
                  ⟨out.1, "Error: Failed to switch to slide " ++ toString p ++
                    ". Could not load context or invalid page."⟩
          | none =>
              ⟨st1, "Error: Missing or invalid \x27pageNumber\x27 argument for switch_slide."⟩
        else ⟨st1, "Tool " ++ tc.toolName ++ " not implemented."⟩

/-- Repeated invocation of `onToolCall` over a sequence of tool calls of
one exchange (no user submission, error or finish event in between, so
no reset of `toolCallCount` occurs). -/
def runToolCalls (fetchCtx : String → Int → Option SlideContext)
    (st : PageState) : List ToolCall → PageState × List String
  | [] => (st, [])
  | tc :: rest =>
      let o := onToolCall fetchCtx st tc
      let r := runToolCalls fetchCtx o.state rest
      (r.1, o.result :: r.2)

/-- The hardcoded per-page contexts of the `/sample.pdf` entry of
`SAMPLE_CONTEXTS` in the context API route (pages 1–10, data copied
verbatim from the source; `\x27` is the ASCII apostrophe appearing in
the source strings). -/
def samplePdfContexts : List (Int × SlideContext) :=
  [ (1, { title := "设计模式 II"
          content := "由Yuqun Zhang讲授的CS304课程，图片来自Head First Design Patterns"
          explanation := "本页是课程的封面页，介绍了课程名称、讲师和资料来源。"
          keywords := ["设计模式", "CS304", "Head First Design Patterns"] }),
    (2, { title := "观察者模式"
          content := "本章将介绍观察者模式的概念和应用"
          explanation := "这是观察者模式章节的标题页，预示了接下来将详细讲解观察者模式的内容。"
          keywords := ["观察者模式", "设计模式"] }),
    (3, { title := "天气监控应用"
          content := "创建一个使用WeatherData对象来更新三种不同显示的应用：\x27当前状况\x27、\x27天气统计\x27和\x27天气预报\x27"
          explanation := "本页介绍了一个实际应用场景，描述了需要创建的天气监控应用程序及其主要组件。有一个图表显示了天气站、WeatherData对象和显示设备之间的关系。"
          keywords := ["天气监控", "WeatherData", "显示设备"] }),
    (4, { title := "需要做什么？"
          content := "WeatherData类有获取温度、湿度和压力的方法，以及在测量值更新时调用的measurementsChanged()方法。需要更新三种不同的显示。"
          explanation := "这一页详细说明了任务规范，展示了WeatherData类的结构，并指出需要在measurementsChanged()方法中实现更新显示的功能。"
          keywords := ["WeatherData", "measurementsChanged", "更新显示"] }),
    (5, { title := "问题规范"
          content := "WeatherData类有获取温度、湿度和压力的getter和setter；measurementsChanged()方法在新的天气数据可用时被调用；我们需要实现三种不同的显示元素；系统必须可扩展，以便今后可能添加其他显示元素。"
          explanation := "详细描述了系统需求和约束条件，强调了系统的可扩展性要求。"
          keywords := ["系统需求", "可扩展性", "显示元素"] }),
    (6, { title := "初次尝试"
          content := "一个简单的实现，通过直接在measurementsChanged()方法中更新所有显示。但这种实现存在问题：编码到实现而非接口，添加新显示需要修改程序。"
          explanation := "展示了一个初步解决方案的代码实现，并指出了其设计缺陷，尤其是违反了\x27封装变化\x27的设计原则。"
          keywords := ["初步实现", "设计缺陷", "封装变化"] }),
    (7, { title := "发布/订阅模式"
          content := "类似于报纸和杂志的订阅机制：你订阅并接收任何新内容；你取消订阅就停止接收内容。"
          explanation := "介绍了发布/订阅模式的基本概念，将其与现实生活中的订阅服务进行类比，并展示了一对多关系的图示。"
          keywords := ["发布/订阅", "订阅机制", "一对多关系"] }),
    (8, { title := "观察者模式"
          content := "观察者模式定义了对象之间的一对多依赖关系，当一个对象改变状态时，所有依赖它的对象都会得到通知并自动更新。"
          explanation := "提供了观察者模式的正式定义，说明了它如何处理对象之间的依赖关系和状态变化通知。"
          keywords := ["观察者模式", "一对多依赖", "状态变化通知"] }),
    (9, { title := "观察者模式结构"
          content := "对象使用Subject接口注册和取消注册为观察者；每个主题可以有多个观察者；所有潜在的观察者需要实现Observer接口并提供update()方法；具体主题实现Subject接口和notifyObservers()方法；具体观察者可以是实现Observer接口并向具体主题注册的任何类。"
          explanation := "详细说明了观察者模式的结构组成，包括Subject接口、Observer接口以及它们之间的关系。图表清晰地展示了各组件的职责和交互方式。"
          keywords := ["Subject接口", "Observer接口", "注册机制", "通知机制"] }),
    (10, { title := "松耦合的力量"
           content := "主题只知道观察者实现了给定接口；可以随时添加新的观察者；不需要修改主题来添加新类型的观察者；可以独立地重用主题或观察者；主题或观察者的变化不会相互影响。"
           explanation := "解释了松耦合设计的优势，强调了观察者模式如何通过最小化对象之间的相互依赖，使系统更灵活、更能适应变化。"
           keywords := ["松耦合", "灵活性", "可重用性", "可维护性"] }) ]

/-- The hardcoded `SAMPLE_CONTEXTS` map of the context route: an
association list from PDF url to its per-page context map. -/
def SAMPLE_CONTEXTS : List (String × List (Int × SlideContext)) :=
  [("/sample.pdf", samplePdfContexts)]

/-- Association-list lookup by url key, `SAMPLE_CONTEXTS[pdfUrl]`. -/
def lookupPdf (u : String) : Option (List (Int × SlideContext)) :=
  (SAMPLE_CONTEXTS.find? (fun e => e.1 == u)).map Prod.snd

/-- Association-list lookup by page key, `pdfData[page]`. -/
def lookupPage (data : List (Int × SlideContext)) (p : Int) : Option SlideContext :=
  (data.find? (fun e => e.1 == p)).map Prod.snd

/-- The per-page map selected for a url, falling back to the sample
deck for an unknown url: `SAMPLE_CONTEXTS[pdfUrl]` with the
`/sample.pdf` entry as default. -/
def selectPdfData (u : String) : List (Int × SlideContext) :=
  match lookupPdf u with
  | some d => d
  | none =>
      match lookupPdf "/sample.pdf" with
      | some d => d
      | none => []

/-- The value of leading decimal digits, `none` when there is none
(`parseInt` yields `NaN` then). -/
def leadingDigitsVal (cs : List Char) : Option Nat :=
  let ds := cs.takeWhile Char.isDigit
  if ds.isEmpty then none
  else some (ds.foldl (fun acc c => acc * 10 + (c.toNat - 48)) 0)

/-- JavaScript `parseInt(s, 10)`: skip leading whitespace, read an
optional sign and then the longest prefix of decimal digits; `NaN`
(modelled `none`) when no digit follows. -/
def parseIntJS (s : String) : Option Int :=
  let cs := s.toList.dropWhile Char.isWhitespace
  match cs with
  | '-' :: rest => (leadingDigitsVal rest).map (fun n => -(n : Int))
  | '+' :: rest => (leadingDigitsVal rest).map (fun n => (n : Int))
  | _ => (leadingDigitsVal cs).map (fun n => (n : Int))

/-- The two query parameters of a context GET request;
`searchParams.get` yields `null` (`none`) for an absent parameter and
the (possibly empty) string otherwise. -/
structure CtxRequest where
  pdfUrl : Option String
  page : Option String
deriving DecidableEq, Repr

/-- Response of the context route: 400 / 404 with an error body, or 200
with the context data. -/
inductive CtxResponse where
  | badRequest (error : String)
  | notFound (error : String)
  | ok (ctx : SlideContext)
deriving DecidableEq, Repr

/-- JavaScript truthiness of `searchParams.get(...)`: `null` and the
empty string are falsy. -/
def paramTruthy : Option String → Bool
  | none => false
  | some s => s ≠ ""

/-- The context API `GET` route: 400 when `!pdfUrl || !pageStr`, 400
when `parseInt(pageStr, 10)` is `NaN` or `< 1`, then a lookup in the
selected per-page map with 404 when the page is absent and 200 with the
context data otherwise. -/
def GET (req : CtxRequest) : CtxResponse :=
  if ¬ (paramTruthy req.pdfUrl ∧ paramTruthy req.page) then
    CtxResponse.badRequest "缺少必要参数"
  else
    match parseIntJS ((req.page).getD "") with
    | none => CtxResponse.badRequest "页码参数无效"
    | some page =>
        if page < 1 then CtxResponse.badRequest "页码参数无效"
        else
          match lookupPage (selectPdfData ((req.pdfUrl).getD "")) page with
          | none => CtxResponse.notFound "未找到该页面的上下文数据"
          | some contextData => CtxResponse.ok contextData

/-- Context object accepted by the chat route (`interface SlideContext`
in the route file: every field optional). -/
structure RouteContext where
  title : Option String := none
  content : Option String := none
  explanation : Option String := none
  keywords : Option (List String) := none
  currentPage : Option Int := none
  totalPages : Option Int := none
deriving DecidableEq, Repr

/-- Fallback `x || d` for an optional string under JavaScript truthiness: absent
and empty strings fall back to the default. -/
def strOrDefault (o : Option String) (d : String) : String :=
  match o with
  | some s => if s = "" then d else s
  | none => d

/-- Fallback `x || d` for an optional number under JavaScript truthiness: absent
and `0` fall back to the default. -/
def numOrDefault (o : Option Int) (d : String) : String :=
  match o with
  | some n => if n = 0 then d else toString n
  | none => d

/-- The conditional 详细解释 line of the system prompt template: present
exactly when `context.explanation` is truthy (an empty string is falsy). -/
def explanationLine (o : Option String) : String :=
  match o with
  | some e => if e = "" then "" else "详细解释: " ++ e
  | none => ""

/-- The conditional 关键词 line of the system prompt template: present
exactly when `context.keywords` is truthy (an array, even empty, is truthy). -/
def keywordsLine (o : Option (List String)) : String :=
  match o with
  | some ks => "关键词: " ++ joinComma ks
  | none => ""

/-- The `getSystemPrompt` template of the chat route: the template
literal built from the slide context, with the 未提供 fallbacks applied
under JavaScript truthiness. -/
def getSystemPrompt (context : RouteContext) : String :=
  "你是一位专业的OOAD老师，正在解释一个幻灯片中的内容。以下是当前幻灯片的上下文信息：\n\n标题: " ++
    strOrDefault context.title "未提供" ++
    "\n内容: " ++ strOrDefault context.content "未提供" ++ "\n" ++
    explanationLine context.explanation ++ "\n" ++
    keywordsLine context.keywords ++
    "\n当前页码: " ++ numOrDefault context.currentPage "未提供" ++
    " / 总页数: " ++ numOrDefault context.totalPages "未提供" ++
    "\n\n# 任务\n- 向学生幻灯片中的概念，使其易于理解\n- 回答用户关于幻灯片内容的问题\n- 必要时提供额外的相关信息或示例\n- 当用户请求查看特定内容或需要参考其他幻灯片时，可以使用switch_slide工具切换到相关页面\n\n# 互动方式\n- 你可以在更多对话性的情境中提出启发性地后续问题，但避免在每个回应中提出多个问题，并保持问题简短。\n- 即使在对话性情境中，你也不应该总是提出后续问题。\n- 你应该经常用相关例子、有帮助的思想实验或有用的比喻来说明困难的概念或想法。\n\n# 工具使用\n- 积极使用工具来帮助学生学习\n- 使用Canvas通过Mermaid让内容可视化，同时添加Markdown文本来说明内容\n- 当用户需要查看其他幻灯片时，使用switch_slide工具切换到相关页面\n- 不要重复调用相同的工具，获得结果或完成所有任务后，输出并告诉用户\n\n# 语言风格\n- 口语化的表达\n- 使用比喻和类比来解释概念\n- 使用幽默和轻松的语气\n- 积极引导用户，避免说教语气\n- 对话中不应该使用markdown格式或emoji\n\n\n请详细解释，避免过于简洁\n"

/-- The `messages` field of a parsed chat request body: an array of
messages, or some non-array JSON value (with its truthiness). -/
inductive MessagesField where
  | arr (msgs : List Message)
  | nonArray (truthy : Bool)
deriving DecidableEq, Repr

/-- A parsed chat request body (`await request.json()` succeeded). -/
structure ChatBody where
  messages : Option MessagesField
  context : Option RouteContext
deriving DecidableEq, Repr

/-- Response of the chat route: 400 with an error body, a streaming
response (`result.toDataStreamResponse()`, identified by the abstract
stream id the oracle returned), or 500 with an error message. -/
inductive ChatResponse where
  | badRequest (error : String)
  | stream (sid : Nat)
  | serverError (error : String)
deriving DecidableEq, Repr

/-- The chat API `POST` route.  `llm system msgs` is the oracle for
`streamText({ model, system, messages, tools, temperature: 0.7 })`:
`Except.ok sid` is a successful stream, `Except.error e` a thrown error
whose message is `e` (for a non-`Error` throw the source substitutes
`LLM处理请求时出错`).  The route rejects a missing or non-array
`messages` field with 400, otherwise forwards the client messages
unchanged together with the system prompt built from the context when
one is provided, and turns a thrown error into a 500. -/
def POST (llm : Option String → List Message → Except String Nat)
    (body : ChatBody) : ChatResponse :=
  match body.messages with
  | some (MessagesField.arr clientMessages) =>
      let systemPrompt := (body.context).map getSystemPrompt
      match llm systemPrompt clientMessages with
      | Except.ok sid => ChatResponse.stream sid
      | Except.error e => ChatResponse.serverError e
  | _ => ChatResponse.badRequest "无效的消息格式"

/-! ## Loop bookkeeping lemmas for the `sendMessage` function-call loop -/

/-- The loop never decreases the count of issued `/api/chat` POSTs. -/
lemma runLoop_posts_mono (oracle : Nat → ApiResponse)
    (onSC : Option (Int → Option SlideContext)) :
    ∀ (k : Nat) (hasFC : Bool) (ic : Nat), MAX_ITERATIONS - ic ≤ k →
      ∀ msgs canvas posts nid,
        posts ≤ (runLoop oracle onSC hasFC ic msgs canvas posts nid).posts := by
  intro k
  induction k with
  | zero =>
    intro hasFC ic hk msgs canvas posts nid
    have hcond : ¬ (hasFC = true ∧ ic < MAX_ITERATIONS) := by
      intro hc
      omega
    rw [runLoop, dif_neg hcond]
  | succ k ih =>
    intro hasFC ic hk msgs canvas posts nid
    rw [runLoop]
    by_cases hcond : hasFC = true ∧ ic < MAX_ITERATIONS
    · rw [dif_pos hcond]
      have hk' : MAX_ITERATIONS - (ic + 1) ≤ k := by omega
      cases horacle : oracle (ic + 1) with
      | ok choices =>
        cases choices with
        | nil => exact Nat.le_succ posts
        | cons c rest =>
          cases c with
          | none => exact Nat.le_succ posts
          | some am =>
            dsimp only
            cases hfc : am.function_call with
            | none =>
              exact Nat.le_trans (Nat.le_succ posts) (ih false (ic + 1) hk' _ _ _ _)
            | some fc =>
              exact Nat.le_trans (Nat.le_succ posts) (ih true (ic + 1) hk' _ _ _ _)
      | badFormat => exact Nat.le_succ posts
      | fail e => exact Nat.le_succ posts
    · rw [dif_neg hcond]

/-- Starting from iteration count `ic`, the loop issues at most
`MAX_ITERATIONS - ic` further POSTs. -/
lemma runLoop_posts_le (oracle : Nat → ApiResponse)
    (onSC : Option (Int → Option SlideContext)) :
    ∀ (k : Nat) (hasFC : Bool) (ic : Nat), MAX_ITERATIONS - ic ≤ k →
      ∀ msgs canvas posts nid,
        (runLoop oracle onSC hasFC ic msgs canvas posts nid).posts ≤
          posts + (MAX_ITERATIONS - ic) := by
  intro k
  induction k with
  | zero =>
    intro hasFC ic hk msgs canvas posts nid
    have hcond : ¬ (hasFC = true ∧ ic < MAX_ITERATIONS) := by
      intro hc
      omega
    rw [runLoop, dif_neg hcond]
    exact Nat.le_add_right posts _
  | succ k ih =>
    intro hasFC ic hk msgs canvas posts nid
    rw [runLoop]
    by_cases hcond : hasFC = true ∧ ic < MAX_ITERATIONS
    · rw [dif_pos hcond]
      have hk' : MAX_ITERATIONS - (ic + 1) ≤ k := by omega
      have hstep : posts + 1 + (MAX_ITERATIONS - (ic + 1)) ≤ posts + (MAX_ITERATIONS - ic) := by
        omega
      cases horacle : oracle (ic + 1) with
      | ok choices =>
        cases choices with
        | nil => dsimp only; omega
        | cons c rest =>
          cases c with
          | none => dsimp only; omega
          | some am =>
            dsimp only
            cases hfc : am.function_call with
            | none => exact Nat.le_trans (ih false (ic + 1) hk' _ _ _ _) hstep
            | some fc => exact Nat.le_trans (ih true (ic + 1) hk' _ _ _ _) hstep
      | badFormat => dsimp only; omega
      | fail e => dsimp only; omega
    · rw [dif_neg hcond]
      exact Nat.le_add_right posts _

/-- Once the loop condition holds, at least one POST is issued. -/
lemma runLoop_posts_enter (oracle : Nat → ApiResponse)
    (onSC : Option (Int → Option SlideContext))
    (ic : Nat) (hic : ic < MAX_ITERATIONS)
    (msgs : List Message) (canvas : CanvasContent) (posts nid : Nat) :
    posts + 1 ≤ (runLoop oracle onSC true ic msgs canvas posts nid).posts := by
  rw [runLoop, dif_pos ⟨rfl, hic⟩]
  cases horacle : oracle (ic + 1) with
  | ok choices =>
    cases choices with
    | nil => exact Nat.le_refl _
    | cons c rest =>
      cases c with
      | none => exact Nat.le_refl _
      | some am =>
        dsimp only
        cases hfc : am.function_call with
        | none =>
          exact runLoop_posts_mono oracle onSC MAX_ITERATIONS false (ic + 1) (by omega) _ _ _ _
        | some fc =>
          exact runLoop_posts_mono oracle onSC MAX_ITERATIONS true (ic + 1) (by omega) _ _ _ _
  | badFormat => exact Nat.le_refl _
  | fail e => exact Nat.le_refl _

/-- For a non-blank input the POST count of `sendMessage` is exactly the
POST count of its function-call loop (whether or not an exception was
caught). -/
lemma sendMessage_posts_eq (oracle : Nat → ApiResponse)
    (onSC : Option (Int → Option SlideContext)) (includeHistory : Bool)
    (st : HookState) (nid : Nat) (content : String)
    (h : jsTrim content ≠ "") :
    (sendMessage oracle onSC includeHistory st nid content).posts =
      (runLoop oracle onSC true 0
        (if includeHistory then st.messages ++ [⟨nid, Role.user, content, none⟩]
         else [⟨nid, Role.user, content, none⟩])
        st.canvas 0 (nid + 1)).posts := by
  unfold sendMessage
  rw [if_neg h]
  dsimp only
  split <;> rfl

/-! ## Claim theorems for the `useLLM` hook -/

/-- C1: For every call to `sendMessage` in the `useLLM` hook with
non-empty trimmed content, the function-call orchestration loop executes
at most `MAX_ITERATIONS = 5` iterations, so at most 5 POST requests to
`/api/chat` are issued per user message; the loop always terminates
(`runLoop` is defined by well-founded recursion on
`MAX_ITERATIONS - iterationCount`, hence is a total function). -/
theorem sendMessage_at_most_five_posts (oracle : Nat → ApiResponse)
    (onSC : Option (Int → Option SlideContext)) (includeHistory : Bool)
    (st : HookState) (nid : Nat) (content : String)
    (h : jsTrim content ≠ "") :
    (sendMessage oracle onSC includeHistory st nid content).posts ≤ 5 := by
  rw [sendMessage_posts_eq oracle onSC includeHistory st nid content h]
  exact runLoop_posts_le oracle onSC MAX_ITERATIONS true 0 (by omega) _ _ _ _

/-- Witness for C1 at a concrete oracle and input. -/
theorem sendMessage_at_most_five_posts_witness :
    jsTrim "你好" ≠ "" ∧
    (sendMessage (fun _ => ApiResponse.ok [some ⟨some "好的", none⟩]) none true
      ⟨[], false, none, ⟨false, ""⟩⟩ 0 "你好").posts ≤ 5 :=
  ⟨by decide,
    sendMessage_at_most_five_posts (fun _ => ApiResponse.ok [some ⟨some "好的", none⟩])
      none true ⟨[], false, none, ⟨false, ""⟩⟩ 0 "你好" (by decide)⟩

/-- C2: In the `sendMessage` loop, iteration continues if and only if
the latest assistant response carries a `function_call`; in particular
when the very first response carries none, exactly one `/api/chat` POST
is made and the final message list is the prior messages plus the user
message plus that single assistant message, while a `function_call` on
the first response forces at least a second POST. -/
theorem sendMessage_stops_without_function_call (oracle : Nat → ApiResponse)
    (onSC : Option (Int → Option SlideContext)) (st : HookState)
    (nid : Nat) (content : String) (am : AssistantMsg)
    (rest : List (Option AssistantMsg))
    (h : jsTrim content ≠ "")
    (h1 : oracle 1 = ApiResponse.ok (some am :: rest)) :
    (am.function_call = none →
      (sendMessage oracle onSC true st nid content).posts = 1 ∧
      (sendMessage oracle onSC true st nid content).state.messages =
        st.messages ++ [⟨nid, Role.user, content, none⟩,
          ⟨nid + 1, Role.assistant, am.content.getD "", none⟩]) ∧
    (am.function_call ≠ none →
      2 ≤ (sendMessage oracle onSC true st nid content).posts) := by
  constructor
  · intro hfc
    have hloop : runLoop oracle onSC true 0
        (st.messages ++ [⟨nid, Role.user, content, none⟩]) st.canvas 0 (nid + 1) =
        ⟨st.messages ++ [⟨nid, Role.user, content, none⟩,
            ⟨nid + 1, Role.assistant, am.content.getD "", none⟩],
          st.canvas, 1, nid + 2, none⟩ := by
      rw [runLoop, dif_pos ⟨rfl, by decide⟩, h1]
      dsimp only
      rw [hfc]
      dsimp only
      rw [runLoop, dif_neg (by simp)]
      simp
    unfold sendMessage
    rw [if_neg h]
    dsimp only
    rw [if_pos rfl, hloop]
    exact ⟨rfl, rfl⟩
  · intro hfc
    have hge : 2 ≤ (runLoop oracle onSC true 0
        (st.messages ++ [⟨nid, Role.user, content, none⟩]) st.canvas 0 (nid + 1)).posts := by
      rw [runLoop, dif_pos ⟨rfl, by decide⟩, h1]
      dsimp only
      cases hfc2 : am.function_call with
      | none => exact absurd hfc2 hfc
      | some fc =>
        dsimp only
        exact runLoop_posts_enter oracle onSC 1 (by decide) _ _ 1 _
    calc 2 ≤ _ := hge
      _ = (sendMessage oracle onSC true st nid content).posts := by
        rw [sendMessage_posts_eq oracle onSC true st nid content h]
        rfl

/-- Witness for C2 at a concrete oracle with no function call in the
first response. -/
theorem sendMessage_stops_without_function_call_witness :
    (sendMessage (fun _ => ApiResponse.ok [some ⟨some "好的", none⟩]) none true
      ⟨[⟨100, Role.user, "早", none⟩], false, none, ⟨false, ""⟩⟩ 7 "你好").posts = 1 ∧
    (sendMessage (fun _ => ApiResponse.ok [some ⟨some "好的", none⟩]) none true
      ⟨[⟨100, Role.user, "早", none⟩], false, none, ⟨false, ""⟩⟩ 7 "你好").state.messages =
      [⟨100, Role.user, "早", none⟩, ⟨7, Role.user, "你好", none⟩,
        ⟨8, Role.assistant, "好的", none⟩] :=
  ((sendMessage_stops_without_function_call
      (fun _ => ApiResponse.ok [some ⟨some "好的", none⟩]) none
      ⟨[⟨100, Role.user, "早", none⟩], false, none, ⟨false, ""⟩⟩ 7 "你好"
      ⟨some "好的", none⟩ [] (by decide) rfl).1 rfl)

/-- C10: Calling `sendMessage` with content whose trimmed form is
empty is a no-op: it returns immediately with zero HTTP requests and the
hook state (`messages`, `isLoading`, `error`, `canvasContent`) and the
id supply unchanged. -/
theorem sendMessage_blank_is_noop (oracle : Nat → ApiResponse)
    (onSC : Option (Int → Option SlideContext)) (includeHistory : Bool)
    (st : HookState) (nid : Nat) (content : String)
    (h : jsTrim content = "") :
    sendMessage oracle onSC includeHistory st nid content = ⟨st, 0, nid⟩ := by
  unfold sendMessage
  rw [if_pos h]

/-- Witness for C10 at whitespace-only content. -/
theorem sendMessage_blank_is_noop_witness :
    sendMessage (fun _ => ApiResponse.badFormat) none true
      ⟨[⟨0, Role.user, "早", none⟩], false, some "旧错误", ⟨true, "图"⟩⟩ 3 "  " =
      ⟨⟨[⟨0, Role.user, "早", none⟩], false, some "旧错误", ⟨true, "图"⟩⟩, 0, 3⟩ :=
  sendMessage_blank_is_noop (fun _ => ApiResponse.badFormat) none true
    ⟨[⟨0, Role.user, "早", none⟩], false, some "旧错误", ⟨true, "图"⟩⟩ 3 "  " (by decide)

/-! ## Claim theorems for the page component -/

/-- C3: Once `toolCallCount` has reached `MAX_TOOL_CALLS = 10`, no
further tool call in the exchange is ever executed: every subsequent
`onToolCall` returns the limit-reached result immediately, leaving the
entire page state — in particular `canvasContent` and the current
slide — unchanged, for as long as no reset (new user submission, error,
or finished exchange) intervenes. -/
theorem onToolCall_limit_blocks_all (fetchCtx : String → Int → Option SlideContext)
    (st : PageState) (tcs : List ToolCall)
    (h : MAX_TOOL_CALLS ≤ st.toolCallCount) :
    runToolCalls fetchCtx st tcs =
      (st, tcs.map (fun _ => "已达到最大工具调用次数 (10)，请重新开始对话")) := by
  induction tcs with
  | nil => rfl
  | cons tc rest ih =>
    have hone : onToolCall fetchCtx st tc =
        ⟨st, "已达到最大工具调用次数 (10)，请重新开始对话"⟩ := by
      unfold onToolCall
      rw [if_pos h]
      rfl
    simp only [runToolCalls, hone, ih, List.map_cons]

/-- Witness for C3: two further tool calls at the limit are both
rejected without touching the state. -/
theorem onToolCall_limit_blocks_all_witness :
    runToolCalls (fun _ _ => none)
      ⟨"/sample.pdf", 1, 10, none, [], false, ⟨false, ""⟩, false, 10⟩
      [⟨"id1", "create_canvas", some ⟨some "图", none⟩⟩,
        ⟨"id2", "switch_slide", some ⟨none, some 3⟩⟩] =
      (⟨"/sample.pdf", 1, 10, none, [], false, ⟨false, ""⟩, false, 10⟩,
        ["已达到最大工具调用次数 (10)，请重新开始对话",
          "已达到最大工具调用次数 (10)，请重新开始对话"]) :=
  onToolCall_limit_blocks_all (fun _ _ => none)
    ⟨"/sample.pdf", 1, 10, none, [], false, ⟨false, ""⟩, false, 10⟩
    [⟨"id1", "create_canvas", some ⟨some "图", none⟩⟩,
      ⟨"id2", "switch_slide", some ⟨none, some 3⟩⟩] (by decide)

/-- C7: Below the call cap, a `create_canvas` tool call whose
`args.content` is a string sets the canvas to
`{ visible: true, content: args.content }`, returns the success result
and does not change the current slide page; when `args.content` is not a
string an error result is returned and the canvas is unchanged. -/
theorem onToolCall_create_canvas_behavior
    (fetchCtx : String → Int → Option SlideContext) (st : PageState) (tc : ToolCall)
    (hcount : st.toolCallCount < MAX_TOOL_CALLS)
    (hname : tc.toolName = "create_canvas") :
    (∀ a c, tc.args = some a → a.content = some c →
      (onToolCall fetchCtx st tc).state.canvas = ⟨true, c⟩ ∧
      (onToolCall fetchCtx st tc).result = "Canvas created successfully." ∧
      (onToolCall fetchCtx st tc).state.currentPage = st.currentPage) ∧
    (∀ a, tc.args = some a → a.content = none →
      (onToolCall fetchCtx st tc).result =
        "Error: Missing or invalid \x27content\x27 argument for create_canvas." ∧
      (onToolCall fetchCtx st tc).state.canvas = st.canvas) := by
  obtain ⟨tid, tname, targs⟩ := tc
  simp only at hname
  subst hname
  have hnot : ¬ MAX_TOOL_CALLS ≤ st.toolCallCount := Nat.not_le.mpr hcount
  constructor
  · intro a c ha hc
    simp only at ha
    subst ha
    unfold onToolCall
    rw [if_neg hnot]
    dsimp only
    rw [if_pos rfl, hc]
    exact ⟨rfl, rfl, rfl⟩
  · intro a ha hc
    simp only at ha
    subst ha
    unfold onToolCall
    rw [if_neg hnot]
    dsimp only
    rw [if_pos rfl, hc]
    exact ⟨rfl, rfl⟩

/-- Witness for C7: a concrete `create_canvas` call below the cap. -/
theorem onToolCall_create_canvas_behavior_witness :
    (onToolCall (fun _ _ => none)
      ⟨"/sample.pdf", 2, 10, none, [], false, ⟨false, ""⟩, false, 3⟩
      ⟨"id1", "create_canvas", some ⟨some "graph TD", none⟩⟩).state.canvas =
      ⟨true, "graph TD"⟩ ∧
    (onToolCall (fun _ _ => none)
      ⟨"/sample.pdf", 2, 10, none, [], false, ⟨false, ""⟩, false, 3⟩
      ⟨"id1", "create_canvas", some ⟨some "graph TD", none⟩⟩).result =
      "Canvas created successfully." ∧
    (onToolCall (fun _ _ => none)
      ⟨"/sample.pdf", 2, 10, none, [], false, ⟨false, ""⟩, false, 3⟩
      ⟨"id1", "create_canvas", some ⟨some "graph TD", none⟩⟩).state.currentPage = 2 :=
  (onToolCall_create_canvas_behavior (fun _ _ => none)
    ⟨"/sample.pdf", 2, 10, none, [], false, ⟨false, ""⟩, false, 3⟩
    ⟨"id1", "create_canvas", some ⟨some "graph TD", none⟩⟩
    (by decide) rfl).1 ⟨some "graph TD", none⟩
    "graph TD" rfl rfl

/-- C8: For every `pageNumber` with `pageNumber < 1` or
`pageNumber > totalPages`, `handleSlideChange` returns `undefined` and
performs no state change: `currentPage`, `slideContext`,
`introGenerated` and the `llmInitiatedPageChange` flag are all left
unchanged (the invalid-page check precedes every state update). -/
theorem handleSlideChange_invalid_page_noop
    (fetchCtx : String → Int → Option SlideContext) (st : PageState) (p : Int)
    (h : p < 1 ∨ p > st.totalPages) :
    handleSlideChange fetchCtx st p = (st, none) := by
  unfold handleSlideChange
  rw [if_pos h]

/-- Witness for C8 at page 0 of a 10-page deck. -/
theorem handleSlideChange_invalid_page_noop_witness :
    handleSlideChange (fun _ _ => none)
      ⟨"/sample.pdf", 4, 10, none, [2], true, ⟨true, "图"⟩, false, 1⟩ 0 =
      (⟨"/sample.pdf", 4, 10, none, [2], true, ⟨true, "图"⟩, false, 1⟩, none) :=
  handleSlideChange_invalid_page_noop (fun _ _ => none)
    ⟨"/sample.pdf", 4, 10, none, [2], true, ⟨true, "图"⟩, false, 1⟩ 0 (by decide)

/-! ## Claim theorems for the context API route -/

/-- The map `SAMPLE_CONTEXTS` has exactly one key, `/sample.pdf`. -/
lemma lookupPdf_characterize (u : String) :
    lookupPdf u = if u = "/sample.pdf" then some samplePdfContexts else none := by
  by_cases hu : u = "/sample.pdf"
  · subst hu
    rfl
  · rw [if_neg hu]
    unfold lookupPdf SAMPLE_CONTEXTS
    rw [List.find?_cons_of_neg, List.find?_nil]
    · rfl
    · simp only [beq_iff_eq]
      exact fun hh => hu hh.symm

/-- A string that `parseInt` reads as a number is nonempty. -/
lemma parseIntJS_ne_empty {ps : String} {p : Int} (hp : parseIntJS ps = some p) :
    ps ≠ "" := by
  intro hh
  subst hh
  exact Option.noConfusion hp

/-- C4: For every context GET request whose `pdfUrl` and `page`
parameters are present, whose `page` parses to an integer ≥ 1, and for
which the hardcoded map has an entry for that `pdfUrl` and page, the
route returns exactly that `SlideContext` object with status 200.  The
route is a pure function of the request and never writes to the map
(`SAMPLE_CONTEXTS` is a constant), so two GETs with the same parameters
yield the same response by reflexivity. -/
theorem GET_known_entry_ok (u ps : String) (p : Int)
    (data : List (Int × SlideContext)) (ctx : SlideContext)
    (hu : lookupPdf u = some data)
    (hp : parseIntJS ps = some p) (h1 : 1 ≤ p)
    (hctx : lookupPage data p = some ctx) :
    GET ⟨some u, some ps⟩ = CtxResponse.ok ctx := by
  have hukey : u = "/sample.pdf" := by
    rw [lookupPdf_characterize] at hu
    by_cases hcase : u = "/sample.pdf"
    · exact hcase
    · rw [if_neg hcase] at hu
      exact Option.noConfusion hu
  have hune : u ≠ "" := by
    rw [hukey]
    decide
  have hpne : ps ≠ "" := parseIntJS_ne_empty hp
  unfold GET
  rw [if_neg (by simp [paramTruthy, hune, hpne])]
  dsimp only [Option.getD]
  rw [hp]
  dsimp only
  rw [if_neg (by omega)]
  have hsel : selectPdfData u = data := by
    unfold selectPdfData
    rw [hu]
  rw [hsel, hctx]

/-- Witness for C4 at page 1 of the sample deck. -/
theorem GET_known_entry_ok_witness :
    GET ⟨some "/sample.pdf", some "1"⟩ = CtxResponse.ok
      { title := "设计模式 II"
        content := "由Yuqun Zhang讲授的CS304课程，图片来自Head First Design Patterns"
        explanation := "本页是课程的封面页，介绍了课程名称、讲师和资料来源。"
        keywords := ["设计模式", "CS304", "Head First Design Patterns"] } :=
  GET_known_entry_ok "/sample.pdf" "1" 1 samplePdfContexts
    { title := "设计模式 II"
      content := "由Yuqun Zhang讲授的CS304课程，图片来自Head First Design Patterns"
      explanation := "本页是课程的封面页，介绍了课程名称、讲师和资料来源。"
      keywords := ["设计模式", "CS304", "Head First Design Patterns"] }
    rfl rfl (by decide) rfl

/-- HTTP status code of a context-route response. -/
def ctxStatus : CtxResponse → Nat
  | CtxResponse.badRequest _ => 400
  | CtxResponse.notFound _ => 404
  | CtxResponse.ok _ => 200

/-- The status the context route would have under the literal reading of
the claim that 400 is returned exactly when a query parameter is
*missing* or the page is invalid: a present-but-empty parameter falls
through to the parse/lookup cases.  (This definition follows the claim
text, for comparison against `GET`.) -/
def claimedCtxStatus (req : CtxRequest) : Nat :=
  match req.pdfUrl, req.page with
  | some u, some ps =>
      match parseIntJS ps with
      | none => 400
      | some p =>
          if p < 1 then 400
          else
            match lookupPage (selectPdfData u) p with
            | none => 404
            | some _ => 200
  | _, _ => 400

/-- Counterexample to C5 as stated: for a present but empty `pdfUrl`
and page parameter `1`, the parameters are not missing, the page parses
to `1 ≥ 1` and the selected map has an entry for page 1, so the claim
demands status 200 — but the truthiness check `!pdfUrl` of the route
fires and it returns 400. -/
theorem ctxRoute_claimed_status_counterexample :
    ctxStatus (GET ⟨some "", some "1"⟩) ≠ claimedCtxStatus ⟨some "", some "1"⟩ := by
  decide

/-- C5 (amended): The context route fails exactly as follows: status
400 when the `pdfUrl` or `page` query parameter is missing **or empty**,
status 400 when `page` does not parse to a number or is less than 1,
status 404 when the selected map has no entry for that page, and status
200 with the context data in every other case. -/
theorem GET_error_handling (req : CtxRequest) :
    ((req.pdfUrl = none ∨ req.pdfUrl = some "" ∨ req.page = none ∨ req.page = some "") →
      GET req = CtxResponse.badRequest "缺少必要参数") ∧
    (∀ u ps, req = ⟨some u, some ps⟩ → u ≠ "" → ps ≠ "" →
      (parseIntJS ps = none → GET req = CtxResponse.badRequest "页码参数无效") ∧
      (∀ p, parseIntJS ps = some p →
        (p < 1 → GET req = CtxResponse.badRequest "页码参数无效") ∧
        (1 ≤ p →
          (lookupPage (selectPdfData u) p = none →
            GET req = CtxResponse.notFound "未找到该页面的上下文数据") ∧
          (∀ c, lookupPage (selectPdfData u) p = some c →
            GET req = CtxResponse.ok c)))) := by
  constructor
  · intro hmiss
    unfold GET
    rw [if_pos]
    rcases hmiss with h1 | h1 | h1 | h1 <;> rw [h1] <;> simp [paramTruthy]
  · rintro u ps rfl hu hps
    have htruthy : ¬ ¬ (paramTruthy (some u) = true ∧ paramTruthy (some ps) = true) := by
      simp [paramTruthy, hu, hps]
    constructor
    · intro hnan
      unfold GET
      rw [if_neg htruthy]
      dsimp only [Option.getD]
      rw [hnan]
    · intro p hp
      constructor
      · intro hlt
        unfold GET
        rw [if_neg htruthy]
        dsimp only [Option.getD]
        rw [hp]
        dsimp only
        rw [if_pos hlt]
      · intro hge
        constructor
        · intro hnone
          unfold GET
          rw [if_neg htruthy]
          dsimp only [Option.getD]
          rw [hp]
          dsimp only
          rw [if_neg (by omega), hnone]
        · intro c hc
          unfold GET
          rw [if_neg htruthy]
          dsimp only [Option.getD]
          rw [hp]
          dsimp only
          rw [if_neg (by omega), hc]

/-- Witness for the amended C5: the four statuses at concrete requests
(missing parameter, unparsable page, absent page, found page). -/
theorem GET_error_handling_witness :
    GET ⟨none, some "1"⟩ = CtxResponse.badRequest "缺少必要参数" ∧
    GET ⟨some "/sample.pdf", some "abc"⟩ = CtxResponse.badRequest "页码参数无效" ∧
    GET ⟨some "/sample.pdf", some "11"⟩ = CtxResponse.notFound "未找到该页面的上下文数据" ∧
    GET ⟨some "/sample.pdf", some "2"⟩ = CtxResponse.ok
      { title := "观察者模式"
        content := "本章将介绍观察者模式的概念和应用"
        explanation := "这是观察者模式章节的标题页，预示了接下来将详细讲解观察者模式的内容。"
        keywords := ["观察者模式", "设计模式"] } :=
  ⟨(GET_error_handling ⟨none, some "1"⟩).1 (Or.inl rfl),
    ((GET_error_handling ⟨some "/sample.pdf", some "abc"⟩).2 "/sample.pdf" "abc" rfl
      (by decide) (by decide)).1 rfl,
    ((((GET_error_handling ⟨some "/sample.pdf", some "11"⟩).2 "/sample.pdf" "11" rfl
      (by decide) (by decide)).2 11 rfl).2 (by decide)).1 (by decide),
    ((((GET_error_handling ⟨some "/sample.pdf", some "2"⟩).2 "/sample.pdf" "2" rfl
      (by decide) (by decide)).2 2 rfl).2 (by decide)).2 _ rfl⟩

/-- The literal reading of claim C9 at a url/page pair: whenever the url
is not a key of the hardcoded map and the page parses to an integer
≥ 1, the route answers from the `/sample.pdf` entry (200 with the
sample context of that page, or 404 when the sample deck lacks it).
(This definition follows the claim text, for comparison against
`GET`.) -/
def claimC9At (u ps : String) : Prop :=
  lookupPdf u = none →
  ∀ p : Int, parseIntJS ps = some p → 1 ≤ p →
    GET ⟨some u, some ps⟩ =
      (match lookupPage samplePdfContexts p with
       | some c => CtxResponse.ok c
       | none => CtxResponse.notFound "未找到该页面的上下文数据")

/-- Counterexample to C9 as stated: the empty string is not a key of the
map and page `2` is a valid sample page, yet the route reports the
missing-parameter error instead of answering from the sample deck. -/
theorem ctxRoute_fallback_counterexample : ¬ claimC9At "" "2" := by
  intro hclaim
  have h2 := hclaim rfl 2 rfl (by decide)
  exact absurd h2 (by decide)

/-- C9 (amended): For every *nonempty* `pdfUrl` that is not a key of
the hardcoded context map, the route answers using the `/sample.pdf`
entry instead of reporting an error: a page lookup for an unknown PDF
returns the sample deck context for that page, or 404 only when the
sample deck also lacks that page.  (A present-but-empty `pdfUrl` is
instead rejected by the parameter-presence check with status 400.) -/
theorem GET_unknown_pdf_falls_back (u ps : String) (p : Int)
    (hu : lookupPdf u = none) (hune : u ≠ "")
    (hp : parseIntJS ps = some p) (h1 : 1 ≤ p) :
    GET ⟨some u, some ps⟩ =
      (match lookupPage samplePdfContexts p with
       | some c => CtxResponse.ok c
       | none => CtxResponse.notFound "未找到该页面的上下文数据") := by
  have hpne : ps ≠ "" := parseIntJS_ne_empty hp
  unfold GET
  rw [if_neg (by simp [paramTruthy, hune, hpne])]
  dsimp only [Option.getD]
  rw [hp]
  dsimp only
  rw [if_neg (by omega)]
  have hsel : selectPdfData u = samplePdfContexts := by
    unfold selectPdfData
    rw [hu]
    rfl
  rw [hsel]
  cases hpage : lookupPage samplePdfContexts p <;> rfl

/-- Witness for the amended C9 at an unknown nonempty url and sample
page 2. -/
theorem GET_unknown_pdf_falls_back_witness :
    GET ⟨some "/other.pdf", some "2"⟩ = CtxResponse.ok
      { title := "观察者模式"
        content := "本章将介绍观察者模式的概念和应用"
        explanation := "这是观察者模式章节的标题页，预示了接下来将详细讲解观察者模式的内容。"
        keywords := ["观察者模式", "设计模式"] } :=
  GET_unknown_pdf_falls_back "/other.pdf" "2" 2 (by decide) (by decide) rfl (by decide)

/-! ## Claim theorem for the chat API route -/

/-- C6: The chat route returns 400 with an error body if and only if
the `messages` field of the parsed request body is missing or not an array;
otherwise it forwards the client messages unchanged — together with the
system prompt built by `getSystemPrompt` from the context exactly when a
context is provided — to the hosted chat-completion call, and it returns
500 with the message of the thrown error when that call throws. -/
theorem POST_error_handling (llm : Option String → List Message → Except String Nat)
    (body : ChatBody) :
    ((∃ e, POST llm body = ChatResponse.badRequest e) ↔
      ∀ ms, body.messages ≠ some (MessagesField.arr ms)) ∧
    (∀ ms, body.messages = some (MessagesField.arr ms) →
      (∀ sid, llm ((body.context).map getSystemPrompt) ms = Except.ok sid →
        POST llm body = ChatResponse.stream sid) ∧
      (∀ e, llm ((body.context).map getSystemPrompt) ms = Except.error e →
        POST llm body = ChatResponse.serverError e)) := by
  obtain ⟨mf, ctx⟩ := body
  constructor
  · constructor
    · rintro ⟨e, he⟩ ms hms
      simp only at hms
      subst hms
      unfold POST at he
      dsimp only at he
      cases hllm : llm (Option.map getSystemPrompt ctx) ms with
      | ok sid => rw [hllm] at he; exact ChatResponse.noConfusion he
      | error e2 => rw [hllm] at he; exact ChatResponse.noConfusion he
    · intro hall
      cases mf with
      | none => exact ⟨"无效的消息格式", rfl⟩
      | some f =>
        cases f with
        | arr ms => exact absurd rfl (hall ms)
        | nonArray t => exact ⟨"无效的消息格式", rfl⟩
  · rintro ms rfl
    constructor
    · intro sid hsid
      unfold POST
      dsimp only
      rw [hsid]
    · intro e he
      unfold POST
      dsimp only
      rw [he]

/-- Witness for C6: a successful forward and a thrown upstream error at
concrete bodies. -/
theorem POST_error_handling_witness :
    POST (fun _ _ => Except.ok 0)
      ⟨some (MessagesField.arr [⟨1, Role.user, "你好", none⟩]), none⟩ =
      ChatResponse.stream 0 ∧
    POST (fun _ _ => Except.error "上游错误")
      ⟨some (MessagesField.arr [⟨1, Role.user, "你好", none⟩]), none⟩ =
      ChatResponse.serverError "上游错误" :=
  ⟨((POST_error_handling (fun _ _ => Except.ok 0)
      ⟨some (MessagesField.arr [⟨1, Role.user, "你好", none⟩]), none⟩).2
      [⟨1, Role.user, "你好", none⟩] rfl).1 0 rfl,
    ((POST_error_handling (fun _ _ => Except.error "上游错误")
      ⟨some (MessagesField.arr [⟨1, Role.user, "你好", none⟩]), none⟩).2
      [⟨1, Role.user, "你好", none⟩] rfl).2 "上游错误" rfl⟩

end OOADEduDemo
